import Mathlib

/-!
Shallow embedding of `GitHubCopilotAuthManager`
(src/packages/core/src/core/openaiContentGenerator/provider/githubCopilotAuthManager.ts).

The manager acquires a GitHub OAuth token through the device-code flow
(`getDeviceCode` / `pollAccessToken`), persists it, exchanges it for a
short-lived Copilot token (`getCopilotTokenFromAPI`), and keeps that token
fresh through a timer (`setupAutoRefresh`) and a freshness check in
`getCopilotToken`.  Network responses, the clock and timer firings are
passed in explicitly; effects (fetches, sleeps, file writes) are returned
as traces.
-/

namespace CopilotAuth

/-- `DeviceCodeResponse` from the source: the device-authorization payload. -/
structure DeviceCodeResponse where
  device_code : String
  user_code : String
  verification_uri : String
  expires_in : Nat
  interval : Nat
deriving DecidableEq

/-- One poll response body as the loop sees it after `response.json()`:
either the body failed to parse as JSON (`malformed`), or it parsed and the
loop reads the `error`, `error_description` and `access_token` fields.
A JSON field that is absent (or otherwise falsy in JS) is modelled as `""`,
matching the truthiness tests `if (json.error)` / `if (access_token)`. -/
inductive PollBody where
  | malformed : PollBody
  | parsed (error : String) (error_description : String) (access_token : String) : PollBody
deriving DecidableEq

/-- An HTTP response to one poll fetch: `response.ok` plus the body. -/
structure PollHttp where
  ok : Bool
  body : PollBody
deriving DecidableEq

/-- Outcome of `pollAccessToken`: the returned token or the thrown error. -/
inductive PollResult where
  | success (token : String) : PollResult
  | cancelled : PollResult
  | invalidResponse : PollResult
  | expired : PollResult
  | denied : PollResult
  | oauthError (msg : String) : PollResult
  | timeout : PollResult
deriving DecidableEq

/-- Observable behaviour of one run of the poll loop: its outcome, how many
token-exchange fetches it issued, and the sleep durations (ms) it performed,
in order. -/
structure PollTrace where
  result : PollResult
  fetches : Nat
  sleeps : List Nat
deriving DecidableEq

/-- The body of the `while (attempts < maxAttempts)` loop of
`pollAccessToken`, lines 459-583 of the source.  `remaining` is
`maxAttempts - attempts` (the fuel), `attempt` the number of attempts
already made; `responses i` is the HTTP response to the fetch of attempt
`i` (1-based) and `cancelled i` the value of `this.pollingCancelled` read
at the start of attempt `i`. -/
def pollLoop (responses : Nat → PollHttp) (cancelled : Nat → Bool)
    (sleepDuration : Nat) : Nat → Nat → PollTrace
  | 0, _ => ⟨.timeout, 0, []⟩
  | remaining + 1, attempt =>
    let attempts := attempt + 1
    if cancelled attempts then ⟨.cancelled, 0, []⟩
    else
      let resp := responses attempts
      match resp.body with
      | .malformed =>
        if !resp.ok then
          let t := pollLoop responses cancelled sleepDuration remaining attempts
          ⟨t.result, t.fetches + 1, sleepDuration :: t.sleeps⟩
        else ⟨.invalidResponse, 1, []⟩
      | .parsed err desc tok =>
        if err ≠ "" then
          if err = "authorization_pending" then
            let t := pollLoop responses cancelled sleepDuration remaining attempts
            ⟨t.result, t.fetches + 1, sleepDuration :: t.sleeps⟩
          else if err = "slow_down" then
            let t := pollLoop responses cancelled sleepDuration remaining attempts
            ⟨t.result, t.fetches + 1, sleepDuration * 2 :: t.sleeps⟩
          else if err = "expired_token" then ⟨.expired, 1, []⟩
          else if err = "access_denied" then ⟨.denied, 1, []⟩
          else ⟨.oauthError (if desc ≠ "" then desc else err), 1, []⟩
        else if tok ≠ "" then ⟨.success tok, 1, []⟩
        else
          let t := pollLoop responses cancelled sleepDuration remaining attempts
          ⟨t.result, t.fetches + 1, sleepDuration :: t.sleeps⟩

/-- `const sleepDuration = (deviceCode.interval + 1) * 1000` (ms). -/
def sleepDurationOf (dc : DeviceCodeResponse) : Nat :=
  (dc.interval + 1) * 1000

/-- `const maxAttempts = Math.ceil(deviceCode.expires_in / (deviceCode.interval + 1))`,
written with natural-number ceiling division. -/
def maxAttemptsOf (dc : DeviceCodeResponse) : Nat :=
  (dc.expires_in + dc.interval) / (dc.interval + 1)

/-- `pollAccessToken` (lines 439-589): run the loop from attempt 0 with the
source's sleep duration and attempt bound. -/
def pollAccessToken (dc : DeviceCodeResponse) (responses : Nat → PollHttp)
    (cancelled : Nat → Bool) : PollTrace :=
  pollLoop responses cancelled (sleepDurationOf dc) (maxAttemptsOf dc) 0

/-- A response on which the loop continues to the next attempt (sleeps)
rather than returning or throwing: `authorization_pending`, `slow_down`,
a parsed body with neither error nor access token, or a malformed body on
a non-ok response (the code `continue`s there). -/
def PollHttp.continuing (r : PollHttp) : Bool :=
  match r.body with
  | .malformed => !r.ok
  | .parsed err _ tok =>
    err = "authorization_pending" || err = "slow_down" || (err = "" && tok = "")

/-- The sleep the loop performs on a continuing response: doubled for
`slow_down`, the base duration otherwise. -/
def iterSleep (d : Nat) (r : PollHttp) : Nat :=
  match r.body with
  | .malformed => d
  | .parsed err _ _ => if err = "slow_down" then d * 2 else d

lemma pollLoop_succ_continuing {responses : Nat → PollHttp} {cancelled : Nat → Bool}
    {d n attempt : Nat}
    (hc : cancelled (attempt + 1) = false)
    (hr : (responses (attempt + 1)).continuing = true) :
    pollLoop responses cancelled d (n + 1) attempt =
      ⟨(pollLoop responses cancelled d n (attempt + 1)).result,
       (pollLoop responses cancelled d n (attempt + 1)).fetches + 1,
       iterSleep d (responses (attempt + 1)) ::
         (pollLoop responses cancelled d n (attempt + 1)).sleeps⟩ := by
  have hcont := hr
  unfold PollHttp.continuing at hcont
  conv_lhs => rw [pollLoop]
  simp only [hc, Bool.false_eq_true, if_false]
  cases hb : (responses (attempt + 1)).body with
  | malformed =>
    rw [hb] at hcont
    simp only [Bool.not_eq_true'] at hcont
    simp [iterSleep, hb, hcont]
  | parsed err desc tok =>
    rw [hb] at hcont
    simp only [Bool.or_eq_true, decide_eq_true_eq, Bool.and_eq_true] at hcont
    rcases hcont with (h | h) | ⟨h1, h2⟩
    · subst h; simp [iterSleep, hb]
    · subst h; simp [iterSleep, hb]
    · subst h1; subst h2; simp [iterSleep, hb]

lemma pollLoop_succ_cancelled {responses : Nat → PollHttp} {cancelled : Nat → Bool}
    {d n attempt : Nat}
    (hc : cancelled (attempt + 1) = true) :
    pollLoop responses cancelled d (n + 1) attempt = ⟨.cancelled, 0, []⟩ := by
  unfold pollLoop
  simp [hc]

/-- On a run where no attempt is cancelled and every response is a
continuing one, the loop consumes all its attempts, fetches once per
attempt, sleeps once per attempt (doubled exactly on `slow_down`
responses), and ends in timeout. -/
lemma pollLoop_all_continuing (responses : Nat → PollHttp) (cancelled : Nat → Bool)
    (d : Nat) :
    ∀ remaining attempt,
      (∀ i, attempt < i → i ≤ attempt + remaining → cancelled i = false) →
      (∀ i, attempt < i → i ≤ attempt + remaining → (responses i).continuing = true) →
      pollLoop responses cancelled d remaining attempt =
        ⟨.timeout, remaining,
          (List.range remaining).map (fun j => iterSleep d (responses (attempt + 1 + j)))⟩ := by
  intro remaining
  induction remaining with
  | zero => intro attempt _ _; rfl
  | succ n ih =>
    intro attempt hc hr
    have hc1 : cancelled (attempt + 1) = false := hc _ (by omega) (by omega)
    have hr1 : (responses (attempt + 1)).continuing = true := hr _ (by omega) (by omega)
    rw [pollLoop_succ_continuing hc1 hr1,
      ih (attempt + 1) (fun i h1 h2 => hc i (by omega) (by omega))
        (fun i h1 h2 => hr i (by omega) (by omega))]
    have harith : ∀ j : Nat, attempt + 1 + 1 + j = attempt + 1 + (j + 1) := by omega
    simp only [List.range_succ_eq_map, List.map_cons, List.map_map, Function.comp_def,
      harith, Nat.add_zero]

lemma pollLoop_fetches_le (responses : Nat → PollHttp) (cancelled : Nat → Bool)
    (d : Nat) :
    ∀ remaining attempt,
      (pollLoop responses cancelled d remaining attempt).fetches ≤ remaining := by
  intro remaining
  induction remaining with
  | zero => intro attempt; exact Nat.le_refl 0
  | succ n ih =>
    intro attempt
    rw [pollLoop]
    split
    · exact Nat.zero_le _
    · dsimp only
      split
      · split
        · exact Nat.succ_le_succ (ih (attempt + 1))
        · exact Nat.one_le_iff_ne_zero.mpr (by omega)
      · split
        · split
          · exact Nat.succ_le_succ (ih (attempt + 1))
          · split
            · exact Nat.succ_le_succ (ih (attempt + 1))
            · split
              · exact Nat.one_le_iff_ne_zero.mpr (by omega)
              · split
                · exact Nat.one_le_iff_ne_zero.mpr (by omega)
                · exact Nat.one_le_iff_ne_zero.mpr (by omega)
        · split
          · exact Nat.one_le_iff_ne_zero.mpr (by omega)
          · exact Nat.succ_le_succ (ih (attempt + 1))

/-- A loop run that never reads `pollingCancelled = true` cannot end in the
cancelled outcome. -/
lemma pollLoop_ne_cancelled (responses : Nat → PollHttp) (cancelled : Nat → Bool)
    (d : Nat) (hc : ∀ i, cancelled i = false) :
    ∀ remaining attempt,
      (pollLoop responses cancelled d remaining attempt).result ≠ .cancelled := by
  intro remaining
  induction remaining with
  | zero => intro attempt; simp [pollLoop]
  | succ n ih =>
    intro attempt
    rw [pollLoop]
    simp only [hc, Bool.false_eq_true, if_false]
    split
    · split
      · exact ih (attempt + 1)
      · simp
    · split
      · split
        · exact ih (attempt + 1)
        · split
          · exact ih (attempt + 1)
          · split
            · simp
            · split
              · simp
              · simp
      · split
        · simp
        · exact ih (attempt + 1)

/-- If the flag is first read as set at attempt `k + 1` and attempts
`1..k` all continue, then the loop ends cancelled having fetched exactly
once per attempt up to `k`, and never at attempt `k + 1`. -/
lemma pollLoop_cancel_at (responses : Nat → PollHttp) (cancelled : Nat → Bool)
    (d k : Nat)
    (hbef : ∀ i, i ≤ k → cancelled i = false)
    (haft : cancelled (k + 1) = true)
    (hcont : ∀ i, i ≤ k → (responses i).continuing = true) :
    ∀ remaining attempt, attempt ≤ k → k < attempt + remaining →
      (pollLoop responses cancelled d remaining attempt).result = .cancelled ∧
      (pollLoop responses cancelled d remaining attempt).fetches = k - attempt := by
  intro remaining
  induction remaining with
  | zero => intro attempt h1 h2; omega
  | succ n ih =>
    intro attempt h1 h2
    rcases Nat.eq_or_lt_of_le h1 with heq | hlt
    · subst heq
      rw [pollLoop_succ_cancelled haft]
      refine ⟨rfl, ?_⟩
      show 0 = attempt - attempt
      omega
    · have hc1 : cancelled (attempt + 1) = false := hbef _ (by omega)
      have hr1 : (responses (attempt + 1)).continuing = true := hcont _ (by omega)
      rw [pollLoop_succ_continuing hc1 hr1]
      obtain ⟨hres, hfet⟩ := ih (attempt + 1) (by omega) (by omega)
      refine ⟨hres, ?_⟩
      show (pollLoop responses cancelled d n (attempt + 1)).fetches + 1 = k - attempt
      omega

/-- Natural ceiling division `(e + i) / (i + 1)` (the source's
`Math.ceil(expires_in / (interval + 1))`) agrees with the rational
ceiling. -/
lemma natCeilDiv_eq (e i : Nat) :
    (e + i) / (i + 1) = ⌈(e : ℚ) / ((i : ℚ) + 1)⌉₊ := by
  rcases Nat.eq_zero_or_pos e with he | he
  · subst he
    simp [Nat.div_eq_of_lt (Nat.lt_succ_self i)]
  · have hmod := Nat.div_add_mod (e + i) (i + 1)
    have hmodlt : (e + i) % (i + 1) < i + 1 := Nat.mod_lt _ (by omega)
    have hdivle : (e + i) / (i + 1) * (i + 1) ≤ e + i := Nat.div_mul_le_self _ _
    have hN : (e + i) / (i + 1) ≠ 0 := by
      intro h0
      have hlt : e + i < i + 1 := (Nat.div_eq_zero_iff (by omega)).mp h0
      omega
    rw [eq_comm, Nat.ceil_eq_iff hN]
    have hpos : (0 : ℚ) < (i : ℚ) + 1 := by positivity
    constructor
    · rw [lt_div_iff₀ hpos]
      obtain ⟨m, hm⟩ : ∃ m, (e + i) / (i + 1) = m + 1 :=
        ⟨(e + i) / (i + 1) - 1,
          (Nat.succ_pred_eq_of_pos (Nat.pos_of_ne_zero hN)).symm⟩
      have hnat : ((e + i) / (i + 1) - 1) * (i + 1) < e := by
        rw [hm]
        have hdivle2 : (m + 1) * (i + 1) ≤ e + i := by rw [← hm]; exact hdivle
        have hexp : (m + 1) * (i + 1) = m * (i + 1) + (i + 1) := by ring
        simp only [Nat.add_sub_cancel]
        omega
      exact_mod_cast hnat
    · rw [div_le_iff₀ hpos]
      have hnat : e ≤ ((e + i) / (i + 1)) * (i + 1) := by
        rw [Nat.mul_comm]
        omega
      exact_mod_cast hnat

/-- `CopilotTokenResponse` from the source: the service-token exchange
payload. -/
structure CopilotTokenResponse where
  expires_at : Int
  refresh_in : Int
  token : String
deriving DecidableEq

/-- `setupAutoRefresh` (lines 353-375): computes
`refreshInterval = (refresh_in - 60) * 1000` and arms a timer only when
that is positive.  The return value is the armed timer's delay in
milliseconds, or `none` when no timer is set. -/
def setupAutoRefresh (tokenResponse : CopilotTokenResponse) : Option Int :=
  let refreshInterval := (tokenResponse.refresh_in - 60) * 1000
  if refreshInterval > 0 then some refreshInterval else none

/-- The mutable fields of `GitHubCopilotAuthManager` that the claims are
about, plus the content of the persisted token file.  `refreshTimeout`
holds the delay of the pending scheduled refresh task, or `none` when no
task is pending. -/
structure ManagerState where
  githubToken : Option String
  copilotToken : Option String
  copilotTokenExpiresAt : Option Int
  refreshTimeout : Option Int
  pollingCancelled : Bool
  isInitialized : Bool
  tokenFile : String
deriving DecidableEq

/-- `getCopilotToken` (lines 173-217).  `now` is `Date.now() / 1000`;
`api` is the outcome `getCopilotTokenFromAPI()` would produce if called.
The JS truthiness test `if (this.copilotTokenExpiresAt)` is false both for
`null` and for the number `0`. -/
def getCopilotToken (s : ManagerState) (now : Int)
    (api : Except String CopilotTokenResponse) :
    Except String (String × ManagerState) :=
  match s.copilotToken with
  | none => .error "Copilot token not available"
  | some tok =>
    match s.copilotTokenExpiresAt with
    | none => .ok (tok, s)
    | some expiresAt =>
      if expiresAt ≠ 0 ∧ now ≥ expiresAt - 5 * 60 then
        match api with
        | .ok resp =>
          .ok (resp.token,
            { s with
              copilotToken := some resp.token
              copilotTokenExpiresAt := some resp.expires_at
              refreshTimeout := setupAutoRefresh resp })
        | .error _ => .error "Failed to refresh expired Copilot token"
      else .ok (tok, s)

/-- `destroy` (lines 675-684): set the cancellation flag and clear the
pending refresh task, touching nothing else. -/
def destroy (s : ManagerState) : ManagerState :=
  { s with pollingCancelled := true, refreshTimeout := none }

/-- Network and file-system effects the manager performs, in order. -/
inductive Event where
  | fetchDeviceCode : Event
  | fetchPollToken : Event
  | fetchVerifyUser : Event
  | fetchCopilotToken : Event
  | writeFile (content : String) : Event
deriving DecidableEq

/-- What happens when time advances past the scheduled refresh point: if a
refresh task is pending it fires, calls `getCopilotTokenFromAPI` (one
network fetch), applies the new token and re-arms on success, and merely
logs on failure (lines 359-373); with no pending task nothing happens. -/
def fireRefreshTimer (s : ManagerState)
    (api : Except String CopilotTokenResponse) :
    ManagerState × List Event :=
  match s.refreshTimeout with
  | none => (s, [])
  | some _ =>
    match api with
    | .ok resp =>
      ({ s with
          copilotToken := some resp.token
          copilotTokenExpiresAt := some resp.expires_at
          refreshTimeout := setupAutoRefresh resp }, [.fetchCopilotToken])
    | .error _ => ({ s with refreshTimeout := none }, [.fetchCopilotToken])

/-- The message of the error `pollAccessToken` throws for each failure. -/
def pollFailureMessage : PollResult → String
  | .success _ => ""
  | .cancelled => "Authentication polling was cancelled"
  | .invalidResponse => "Invalid response from GitHub OAuth"
  | .expired => "❌ Authentication code expired. Please try again."
  | .denied => "❌ Authentication was denied. Please try again."
  | .oauthError m => "OAuth error: " ++ m
  | .timeout => "❌ Authentication timeout. Please try again."

/-- External world of one `setupGitHubToken` run: what `readGithubToken`
returns (`none` for a missing/empty file), whether `verifyGitHubUser`
succeeds for the saved token and for a freshly obtained one, and the
device-flow endpoints' responses. -/
structure SetupEnv where
  savedToken : Option String
  verifySaved : Bool
  deviceCodeResult : Except String DeviceCodeResponse
  pollResponses : Nat → PollHttp
  verifyNew : Bool

/-- The value `this.pollingCancelled` has at the start of poll attempt `i`,
given its value `flag` when the poll loop starts and `destroyDuring = some j`
meaning `destroy()` runs between attempt `j` and attempt `j + 1`
(`j = 0`: after the loop starts but before the first check). -/
def cancelSchedule (flag : Bool) (destroyDuring : Option Nat) (i : Nat) : Bool :=
  flag ||
    match destroyDuring with
    | some j => decide (j < i)
    | none => false

/-- Result of `setupGitHubToken`: the thrown error if any, the manager
state after the call, and the effects performed. -/
structure SetupResult where
  result : Except String Unit
  state : ManagerState
  events : List Event

/-- The device-flow tail of `setupGitHubToken` (lines 286-323):
`getDeviceCode()`, `pollAccessToken()`, persist the token, then
`verifyGitHubUser()`. -/
def deviceOAuthFlow (env : SetupEnv) (destroyDuring : Option Nat)
    (s : ManagerState) (evs : List Event) : SetupResult :=
  match env.deviceCodeResult with
  | .error e => ⟨.error e, s, evs ++ [.fetchDeviceCode]⟩
  | .ok dc =>
    let t := pollAccessToken dc env.pollResponses
      (cancelSchedule s.pollingCancelled destroyDuring)
    let evs := evs ++ [.fetchDeviceCode] ++ List.replicate t.fetches .fetchPollToken
    match t.result with
    | .success token =>
      let s := { s with tokenFile := token, githubToken := some token }
      let evs := evs ++ [.writeFile token, .fetchVerifyUser]
      if env.verifyNew then ⟨.ok (), s, evs⟩
      else ⟨.error "Failed to verify GitHub user", s, evs⟩
    | r => ⟨.error (pollFailureMessage r), s, evs⟩

/-- `setupGitHubToken` (lines 248-334): reset the cancellation flag, try
the saved token, on verification failure clear it and fall through to the
device flow. -/
def setupGitHubToken (env : SetupEnv) (destroyDuring : Option Nat)
    (s0 : ManagerState) : SetupResult :=
  let s := { s0 with pollingCancelled := false }
  match env.savedToken with
  | some saved =>
    let s := { s with githubToken := some saved }
    if env.verifySaved then ⟨.ok (), s, [.fetchVerifyUser]⟩
    else
      deviceOAuthFlow env destroyDuring
        { s with tokenFile := "", githubToken := none }
        [.fetchVerifyUser, .writeFile ""]
  | none => deviceOAuthFlow env destroyDuring s []

/-- How one `initialize()` call begins (lines 95-113): return at once if
already initialized, attach to the in-flight promise if there is one, and
only otherwise start `doInitialize()`.  `doInitStarts` counts the started
executions of the authorization sequence. -/
structure InitState where
  isInitialized : Bool
  hasPromise : Bool
  doInitStarts : Nat
deriving DecidableEq

/-- How a caller enters `initialize()`. -/
inductive EnterKind where
  | immediate : EnterKind
  | starter : EnterKind
  | awaitShared : EnterKind
deriving DecidableEq

/-- The synchronous prefix of `initialize()` up to its first suspension
point: the checks of `isInitialized` and `initializePromise` and the
assignment `this.initializePromise = this.doInitialize()` happen without
interleaving. -/
def initEnter (s : InitState) : InitState × EnterKind :=
  if s.isInitialized then (s, .immediate)
  else if s.hasPromise then (s, .awaitShared)
  else ({ s with hasPromise := true, doInitStarts := s.doInitStarts + 1 }, .starter)

/-- `n` callers run their synchronous prefixes one after the other (the
single-threaded event loop) before any of them is resumed. -/
def enterAll : Nat → InitState → InitState × List EnterKind
  | 0, s => (s, [])
  | n + 1, s =>
    let p := initEnter s
    let q := enterAll n p.1
    (q.1, p.2 :: q.2)

/-- Outcome of the one shared `doInitialize()` execution. -/
inductive InitOutcome where
  | success : InitOutcome
  | failure (msg : String) : InitOutcome
deriving DecidableEq

/-- What each caller eventually receives: an `immediate` caller resolves
on its own; a `starter` or `awaitShared` caller resolves or rejects with
the shared execution's outcome (lines 104-120). -/
def callerResult (flightOutcome : InitOutcome) : EnterKind → InitOutcome
  | .immediate => .success
  | .starter => flightOutcome
  | .awaitShared => flightOutcome

lemma enterAll_inflight (n : Nat) (c : Nat) :
    enterAll n ⟨false, true, c⟩ = (⟨false, true, c⟩, List.replicate n .awaitShared) := by
  induction n with
  | zero => rfl
  | succ m ih => simp [enterAll, initEnter, ih, List.replicate_succ]

/-- Device-code response with `interval = 5` and `expires_in = 30`, the
spec's worked example: base sleep 6000 ms, `maxAttempts = 5`. -/
def dcSmall : DeviceCodeResponse :=
  ⟨"dcode", "ucode", "https://github.com/login/device", 30, 5⟩

/-- Poll responses that always report `authorization_pending`. -/
def pendingForever : Nat → PollHttp :=
  fun _ => ⟨true, .parsed "authorization_pending" "" ""⟩

/-- Poll responses: `slow_down` at attempt 1, `authorization_pending` at
attempt 2, an access token from attempt 3 on. -/
def slowThenPending : Nat → PollHttp
  | 1 => ⟨true, .parsed "slow_down" "" ""⟩
  | 2 => ⟨true, .parsed "authorization_pending" "" ""⟩
  | _ => ⟨true, .parsed "" "" "tok"⟩

/-- Poll responses alternating `slow_down` (odd attempts) and
`authorization_pending` (even attempts). -/
def altSlowPending : Nat → PollHttp :=
  fun i =>
    if i % 2 = 1 then ⟨true, .parsed "slow_down" "" ""⟩
    else ⟨true, .parsed "authorization_pending" "" ""⟩

/-- Claim C1 (code_bug evidence): at the failing input — poll attempt 1
answered by an HTTP 200 (ok) response whose body is not valid JSON — the
code throws the fatal `Invalid response from GitHub OAuth` error after a
single fetch instead of treating the iteration as transient; and when
every response is non-ok with a malformed body the loop silently sleeps
and continues to the timeout instead of failing fatally.  The two branches
are exactly swapped relative to the claim and to the code's own comment
(`// Non-OK status and can't parse JSON - treat as error`). -/
theorem malformed_body_branches_swapped :
    pollAccessToken dcSmall (fun _ => ⟨true, .malformed⟩) (fun _ => false) =
      ⟨.invalidResponse, 1, []⟩ ∧
    pollAccessToken dcSmall (fun _ => ⟨false, .malformed⟩) (fun _ => false) =
      ⟨.timeout, 5, [6000, 6000, 6000, 6000, 6000]⟩ := by
  exact ⟨by decide, by decide⟩

/-- Claim C2 (counterexample): with `interval = 5` (base sleep 6000 ms), a
`slow_down` at attempt 1 makes that iteration wait 12000 ms, but the very
next iteration (`authorization_pending`) waits only the base 6000 ms —
not at least twice the previous wait, so the doubling is not sticky. -/
theorem slow_down_not_sticky_cex :
    (pollAccessToken ⟨"d", "u", "v", 100, 5⟩ slowThenPending
      (fun _ => false)).sleeps = [12000, 6000] ∧
    ¬ (2 * 12000 ≤ 6000) := by
  exact ⟨by decide, by decide⟩

/-- Claim C2 (amended): a `slow_down` response doubles the sleep only for
the iteration that received it; the stored interval is never modified, so
on a run where no attempt is cancelled and every response is continuing,
attempt `1 + j` sleeps `2 × base` exactly when its response is
`slow_down` and the base duration otherwise. -/
theorem slow_down_doubles_single_iteration
    (dc : DeviceCodeResponse) (responses : Nat → PollHttp) (cancelled : Nat → Bool)
    (hc : ∀ i, cancelled i = false)
    (hr : ∀ i, (responses i).continuing = true) :
    (pollAccessToken dc responses cancelled).sleeps =
      (List.range (maxAttemptsOf dc)).map
        (fun j => iterSleep (sleepDurationOf dc) (responses (1 + j))) := by
  rw [pollAccessToken, pollLoop_all_continuing responses cancelled (sleepDurationOf dc)
    (maxAttemptsOf dc) 0 (fun i _ _ => hc i) (fun i _ _ => hr i)]

/-- Witness for `slow_down_doubles_single_iteration` at a run that
alternates `slow_down` and `authorization_pending`. -/
theorem slow_down_doubles_single_iteration_witness :
    (pollAccessToken ⟨"d", "u", "v", 100, 5⟩ altSlowPending (fun _ => false)).sleeps =
      (List.range (maxAttemptsOf ⟨"d", "u", "v", 100, 5⟩)).map
        (fun j => iterSleep (sleepDurationOf ⟨"d", "u", "v", 100, 5⟩)
          (altSlowPending (1 + j))) :=
  slow_down_doubles_single_iteration _ altSlowPending _ (fun _ => rfl)
    (fun i => by
      unfold altSlowPending
      by_cases h : i % 2 = 1 <;> simp [h, PollHttp.continuing])

/-- Claim C3 (counterexample): for `refresh_in = 60` the computed
`refreshInterval` is 0, the `if (refreshInterval > 0)` guard fails, and no
refresh task is armed at all — rather than one firing at delay 0 as the
claim states. -/
theorem autoRefresh_refresh60_cex :
    setupAutoRefresh ⟨3600, 60, "tok"⟩ = none := by decide

/-- Claim C3 (amended): the background refresh task is armed at
`(refresh_in - 60)` seconds from now exactly when `refresh_in > 60`;
when `refresh_in ≤ 60` no refresh is scheduled at all. -/
theorem setupAutoRefresh_schedule (r : CopilotTokenResponse) :
    setupAutoRefresh r =
      if 60 < r.refresh_in then some ((r.refresh_in - 60) * 1000) else none := by
  rw [setupAutoRefresh]
  by_cases h : 60 < r.refresh_in
  · rw [if_pos (by omega), if_pos h]
  · rw [if_neg (by omega), if_neg h]

/-- Claim C4: while the manager is uninitialized with no in-flight
promise, `n ≥ 1` concurrent `initialize()` callers start exactly one
`doInitialize` execution — the first caller starts it and the other
`n - 1` attach to the shared promise — and every caller resolves or
rejects with that single execution's outcome. -/
theorem concurrent_init_single_flight (n : Nat) (hn : 1 ≤ n) (o : InitOutcome) :
    (enterAll n ⟨false, false, 0⟩).1.doInitStarts = 1 ∧
    (enterAll n ⟨false, false, 0⟩).2 =
      .starter :: List.replicate (n - 1) .awaitShared ∧
    (enterAll n ⟨false, false, 0⟩).2.map (callerResult o) = List.replicate n o := by
  obtain ⟨m, rfl⟩ : ∃ m, n = m + 1 := ⟨n - 1, by omega⟩
  have h1 : enterAll (m + 1) ⟨false, false, 0⟩ =
      (⟨false, true, 1⟩, .starter :: List.replicate m .awaitShared) := by
    rw [enterAll]
    simp [initEnter, enterAll_inflight]
  rw [h1]
  refine ⟨rfl, by simp, ?_⟩
  simp [callerResult, List.map_replicate, List.replicate_succ]

/-- Witness for `concurrent_init_single_flight` with three callers. -/
theorem concurrent_init_single_flight_witness :
    (enterAll 3 ⟨false, false, 0⟩).1.doInitStarts = 1 ∧
    (enterAll 3 ⟨false, false, 0⟩).2 =
      .starter :: List.replicate 2 .awaitShared ∧
    (enterAll 3 ⟨false, false, 0⟩).2.map (callerResult .success) =
      List.replicate 3 .success :=
  concurrent_init_single_flight 3 (by decide) .success

/-- Manager state holding a service token `"old"` that expires at epoch
second 300. -/
def cexTokenState : ManagerState :=
  ⟨some "gh", some "old", some 300, none, false, true, "gh"⟩

/-- Claim C5 (counterexample): at `now = 0` with `expiresAt = 300` the
remaining lifetime is exactly 300 s; the claim says the cached token is
returned unchanged when `remaining ≥ 300`, but the code's
`now >= expiresAt - buffer` test fires a refresh and returns the new
token with updated state. -/
theorem getCopilotToken_boundary_cex :
    (300 : Int) - 0 ≥ 300 ∧
    getCopilotToken cexTokenState 0 (.ok ⟨7200, 1500, "new"⟩) =
      .ok ("new",
        ⟨some "gh", some "new", some 7200, some 1440000, false, true, "gh"⟩) := by
  exact ⟨by decide, rfl⟩

/-- Claim C5 (amended): when a service token exists with a nonzero
recorded expiry, `getCopilotToken` returns the cached token unchanged
exactly when `remaining = expiresAt - now > 300` s, and refreshes —
replacing the stored token and expiry and re-arming the refresh task, or
failing when the exchange fails — exactly when `remaining ≤ 300` s; and
it throws the token-unavailable error whenever no service token has ever
been obtained. -/
theorem getCopilotToken_refresh_rule (s : ManagerState) (now : Int)
    (api : Except String CopilotTokenResponse) (tok : String) (e : Int)
    (htok : s.copilotToken = some tok)
    (hexp : s.copilotTokenExpiresAt = some e)
    (hnz : e ≠ 0) :
    (e - now > 300 → getCopilotToken s now api = .ok (tok, s)) ∧
    (e - now ≤ 300 →
      getCopilotToken s now api =
        (match api with
         | .ok resp => .ok (resp.token,
             { s with
               copilotToken := some resp.token
               copilotTokenExpiresAt := some resp.expires_at
               refreshTimeout := setupAutoRefresh resp })
         | .error _ => .error "Failed to refresh expired Copilot token")) ∧
    (∀ s2 : ManagerState, s2.copilotToken = none →
      getCopilotToken s2 now api = .error "Copilot token not available") := by
  refine ⟨?_, ?_, ?_⟩
  · intro h
    simp only [getCopilotToken.eq_def, htok, hexp]
    rw [if_neg (by omega)]
  · intro h
    simp only [getCopilotToken.eq_def, htok, hexp]
    rw [if_pos ⟨hnz, by omega⟩]
  · intro s2 h2
    simp only [getCopilotToken.eq_def, h2]

/-- Witness for `getCopilotToken_refresh_rule`: a token expiring at 1000
read at `now = 0` is returned unchanged. -/
theorem getCopilotToken_refresh_rule_witness :
    getCopilotToken ⟨some "gh", some "tok", some 1000, none, false, true, "gh"⟩
      0 (.ok ⟨7200, 1500, "new"⟩) =
      .ok ("tok", ⟨some "gh", some "tok", some 1000, none, false, true, "gh"⟩) :=
  (getCopilotToken_refresh_rule _ 0 _ "tok" 1000 rfl rfl (by decide)).1 (by decide)

/-- Claim C6: the poll loop never fetches more than
`maxAttempts = ⌈expires_in / (interval + 1)⌉` times, the base sleep is
`(interval + 1)` seconds (stored in ms), and when every response is
non-resolving and nothing is cancelled it fails by timeout after exactly
`maxAttempts` fetches; in particular `interval = 5`, `expires_in = 30`
gives `maxAttempts = 5`. -/
theorem pollAccessToken_timeout_after_maxAttempts
    (dc : DeviceCodeResponse) (responses : Nat → PollHttp) (cancelled : Nat → Bool)
    (hc : ∀ i, cancelled i = false)
    (hr : ∀ i, (responses i).continuing = true) :
    maxAttemptsOf dc = ⌈(dc.expires_in : ℚ) / ((dc.interval : ℚ) + 1)⌉₊ ∧
    sleepDurationOf dc = (dc.interval + 1) * 1000 ∧
    (∀ rs cs, (pollAccessToken dc rs cs).fetches ≤ maxAttemptsOf dc) ∧
    (pollAccessToken dc responses cancelled).result = .timeout ∧
    (pollAccessToken dc responses cancelled).fetches = maxAttemptsOf dc ∧
    maxAttemptsOf dcSmall = 5 := by
  have hall := pollLoop_all_continuing responses cancelled (sleepDurationOf dc)
    (maxAttemptsOf dc) 0 (fun i _ _ => hc i) (fun i _ _ => hr i)
  refine ⟨natCeilDiv_eq _ _, rfl, fun rs cs => pollLoop_fetches_le _ _ _ _ _, ?_, ?_, by decide⟩
  · rw [pollAccessToken, hall]
  · rw [pollAccessToken, hall]

/-- Witness for `pollAccessToken_timeout_after_maxAttempts`: five pending
responses at `interval = 5`, `expires_in = 30` end in timeout after
exactly 5 fetches. -/
theorem pollAccessToken_timeout_after_maxAttempts_witness :
    (pollAccessToken dcSmall pendingForever (fun _ => false)).result = .timeout ∧
    (pollAccessToken dcSmall pendingForever (fun _ => false)).fetches = 5 := by
  have h := pollAccessToken_timeout_after_maxAttempts dcSmall pendingForever
    (fun _ => false) (fun _ => rfl) (fun _ => rfl)
  exact ⟨h.2.2.2.1, by rw [h.2.2.2.2.1]; exact h.2.2.2.2.2⟩

/-- Claim C7: if attempts `1..k` all continue, the cancellation flag is
read false through attempt `k` and true at attempt `k + 1` (destroy
signalled between iteration `k` and `k + 1`), and attempts remain, then
the poll fails with the cancellation error having made exactly `k`
fetches — iteration `k + 1` issues no network call. -/
theorem pollAccessToken_cancelled_before_fetch
    (dc : DeviceCodeResponse) (responses : Nat → PollHttp) (cancelled : Nat → Bool)
    (k : Nat)
    (hk : k + 1 ≤ maxAttemptsOf dc)
    (hbef : ∀ i, i ≤ k → cancelled i = false)
    (haft : cancelled (k + 1) = true)
    (hcont : ∀ i, i ≤ k → (responses i).continuing = true) :
    (pollAccessToken dc responses cancelled).result = .cancelled ∧
    (pollAccessToken dc responses cancelled).fetches = k :=
  pollLoop_cancel_at responses cancelled (sleepDurationOf dc) k hbef haft hcont
    (maxAttemptsOf dc) 0 (Nat.zero_le _) (by omega)

/-- Witness for `pollAccessToken_cancelled_before_fetch`: cancellation
signalled between attempts 1 and 2 stops the loop with exactly one fetch. -/
theorem pollAccessToken_cancelled_before_fetch_witness :
    (pollAccessToken dcSmall pendingForever (fun i => decide (1 < i))).result =
      .cancelled ∧
    (pollAccessToken dcSmall pendingForever (fun i => decide (1 < i))).fetches = 1 :=
  pollAccessToken_cancelled_before_fetch dcSmall pendingForever _ 1 (by decide)
    (fun i hi => by simp only [decide_eq_false_iff_not]; omega)
    (by decide)
    (fun i _ => rfl)

/-- Claim C8: when a saved credential is present but fails verification,
the run does not fail at that point: the invalid credential is cleared
from the store (the empty write) and from memory, the device flow runs,
and on its success the new token overwrites the old file and is kept in
memory. -/
theorem stored_credential_self_healing
    (env : SetupEnv) (destroyDuring : Option Nat) (s0 : ManagerState)
    (saved : String) (dc : DeviceCodeResponse) (newTok : String)
    (hsaved : env.savedToken = some saved)
    (hver : env.verifySaved = false)
    (hdc : env.deviceCodeResult = .ok dc)
    (hpoll : (pollAccessToken dc env.pollResponses
      (cancelSchedule false destroyDuring)).result = .success newTok)
    (hvn : env.verifyNew = true) :
    (setupGitHubToken env destroyDuring s0).result = .ok () ∧
    (setupGitHubToken env destroyDuring s0).state.tokenFile = newTok ∧
    (setupGitHubToken env destroyDuring s0).state.githubToken = some newTok ∧
    (setupGitHubToken env destroyDuring s0).events =
      [.fetchVerifyUser, .writeFile "", .fetchDeviceCode] ++
        List.replicate (pollAccessToken dc env.pollResponses
          (cancelSchedule false destroyDuring)).fetches .fetchPollToken ++
        [.writeFile newTok, .fetchVerifyUser] := by
  rw [setupGitHubToken, hsaved]
  simp only [hver, if_false, Bool.false_eq_true]
  rw [deviceOAuthFlow, hdc]
  simp only [hpoll]
  simp [hvn]

/-- Environment for the witness of `stored_credential_self_healing`: a
stale saved token failing verification, then a device flow that succeeds
at the first poll attempt. -/
def selfHealEnv : SetupEnv :=
  ⟨some "stale", false, .ok dcSmall, fun _ => ⟨true, .parsed "" "" "newtok"⟩, true⟩

/-- Witness for `stored_credential_self_healing` on `selfHealEnv`. -/
theorem stored_credential_self_healing_witness :
    (setupGitHubToken selfHealEnv none
      ⟨some "stale", none, none, none, true, false, "stale"⟩).result = .ok () ∧
    (setupGitHubToken selfHealEnv none
      ⟨some "stale", none, none, none, true, false, "stale"⟩).state.tokenFile =
      "newtok" ∧
    (setupGitHubToken selfHealEnv none
      ⟨some "stale", none, none, none, true, false, "stale"⟩).state.githubToken =
      some "newtok" ∧
    (setupGitHubToken selfHealEnv none
      ⟨some "stale", none, none, none, true, false, "stale"⟩).events =
      [.fetchVerifyUser, .writeFile "", .fetchDeviceCode] ++
        List.replicate (pollAccessToken dcSmall selfHealEnv.pollResponses
          (cancelSchedule false none)).fetches .fetchPollToken ++
        [.writeFile "newtok", .fetchVerifyUser] :=
  stored_credential_self_healing selfHealEnv none _ "stale" dcSmall "newtok"
    rfl rfl rfl (by decide) rfl

/-- Claim C9: `destroy()` sets the cancellation flag and cancels the
pending refresh task; every other field — the persisted file, the
in-memory GitHub token, the service token and its expiry, the
initialization flag — is unchanged, and after `destroy()` the scheduled
refresh point passing produces no state change and no network call. -/
theorem destroy_frame (s : ManagerState) (api : Except String CopilotTokenResponse) :
    (destroy s).pollingCancelled = true ∧
    (destroy s).refreshTimeout = none ∧
    (destroy s).githubToken = s.githubToken ∧
    (destroy s).copilotToken = s.copilotToken ∧
    (destroy s).copilotTokenExpiresAt = s.copilotTokenExpiresAt ∧
    (destroy s).isInitialized = s.isInitialized ∧
    (destroy s).tokenFile = s.tokenFile ∧
    fireRefreshTimer (destroy s) api = (destroy s, []) :=
  ⟨rfl, rfl, rfl, rfl, rfl, rfl, rfl, rfl⟩

/-- Claim C10: `setupGitHubToken` resets the cancellation flag to false
before any polling begins, so running it after a `destroy()` is the same
run as without the destroyed flag (only the timer cancellation survives);
and when no `destroy()` happens while the poll loop is in flight, the
loop can never end with the cancellation error. -/
theorem cancel_flag_reset_on_setup
    (env : SetupEnv) (destroyDuring : Option Nat) (s0 : ManagerState)
    (dc : DeviceCodeResponse) (responses : Nat → PollHttp) :
    setupGitHubToken env destroyDuring (destroy s0) =
      setupGitHubToken env destroyDuring { s0 with refreshTimeout := none } ∧
    (pollAccessToken dc responses (cancelSchedule false none)).result ≠
      .cancelled :=
  ⟨rfl, pollLoop_ne_cancelled responses _ _ (fun _ => rfl) _ _⟩

end CopilotAuth
